import Mathlib

/-!
Shallow embedding of the `APIController` class of API-Tools-TS
(src/controllers/apiController.ts, the modern class starting at the
`ControllerErrors`-aware version) together with its error taxonomy
(src/Utils/ControllerErrors.ts).

Modelling conventions:
* JavaScript `Map` objects become insertion-ordered association lists
  (`List (String × α)`); `Map.set` keeps the position of an existing key
  and appends a fresh key, exactly as in JS.
* Methods that `throw` are modelled as functions `… → Option Errors × ApiState`:
  the first component is the thrown error code (if any) and the second is the
  state of the controller after the call, including any mutations performed
  before the throw (JS exceptions do not roll anything back).
* Callables are values of `JsVal`; `validateCallback`'s
  `typeof callback === 'function'` test becomes `JsVal.isCallable`.
* The express `app`/`router` pair is modelled by the parts the registration
  layer touches: `appStack` is the ordered list of middleware functions passed
  to `app.use` by `registerAllMiddlewares`, and `router` is the ordered list of
  route registrations made by `router.route(endpoint)[method](...handlers)`,
  each carrying its handler stack (per-route middlewares followed by the
  endpoint callback).
-/

/-- Error codes from `src/Utils/ControllerErrors.ts` (`enum Errors`). -/
inductive Errors where
  | CLASS_INITIALIZATION_ERROR
  | CONTROLLER_ERROR
  | ENDPOINT_ERROR
  | METHOD_ERROR
  | CALLBACK_ERROR
  | MIDDLEWARE_ERROR
  | PARAMETER_ERROR
  | SERVER_ERROR
  | VALIDATION_ERROR
deriving DecidableEq, Repr

/-- The concrete middleware/handler functions the controller manipulates.
`morganFn`/`helmetFn`/`corsFn` are the values produced by
`morgan(...)`, `helmet(...)`, `cors(...)` in `applyDefaultMiddlewares`,
parameterised by the configuration they were built from; `user n` stands for
an arbitrary caller-supplied function. -/
inductive Fn where
  | morganFn (format : String)
  | helmetFn (opts : Option Nat)
  | corsFn (opts : Option Nat)
  | user (n : Nat)
deriving DecidableEq, Repr

/-- A JavaScript value passed where a callback is expected: either an actual
function or a non-callable value. -/
inductive JsVal where
  | fn (f : Fn)
  | nonFn
deriving DecidableEq, Repr

/-- `typeof callback === 'function'` (together with truthiness) from
`validateCallback`. -/
def JsVal.isCallable : JsVal → Bool
  | .fn _ => true
  | .nonFn => false

/-- JS `Map.set`: replace in place if the key exists, else append. -/
def mapSet (k : String) (v : JsVal) : List (String × JsVal) → List (String × JsVal)
  | [] => [(k, v)]
  | (k', v') :: rest => if k' = k then (k, v) :: rest else (k', v') :: mapSet k v rest

/-- JS `Map.has`. -/
def mapHas (k : String) : List (String × JsVal) → Bool
  | [] => false
  | (k', _) :: rest => k' = k || mapHas k rest

/-- JS `Map.get` (as an `Option`). -/
def mapGet (k : String) : List (String × JsVal) → Option JsVal
  | [] => none
  | (k', v) :: rest => if k' = k then some v else mapGet k rest

/-- `APIControllerConfig` after the constructor merges it with the defaults
(`port 3000`, `hostname "localhost"`, `useDefaultMiddlewares true`,
`jsonLimit/urlEncodedLimit "10mb"`).  `morganFormat`, `helmetOpts` and
`corsOpts` model the `morgan`/`helmet`/`cors` option fields. -/
structure Config where
  port : Nat
  hostname : String
  useDefaultMiddlewares : Bool
  morganFormat : Option String
  helmetOpts : Option Nat
  corsOpts : Option Nat
  jsonLimit : String
  urlEncodedLimit : String
deriving DecidableEq, Repr

def defaultConfig : Config :=
  { port := 3000
    hostname := "localhost"
    useDefaultMiddlewares := true
    morganFormat := none
    helmetOpts := none
    corsOpts := none
    jsonLimit := "10mb"
    urlEncodedLimit := "10mb" }

/-- The mutable state of one `APIController` instance. -/
structure ApiState where
  mainEndPoint : String
  /-- `this.endpoints : Map<string, …>`, keyed by `"METHOD path"`. -/
  endpoints : List (String × JsVal)
  /-- `this.middlewares : Map<string, MiddleWareCallback>`. -/
  middlewares : List (String × JsVal)
  /-- `this.parameters : Map<string, ParameterCallback>`. -/
  parameters : List (String × JsVal)
  /-- Route registrations `router.route(endpoint)[method](...handlers)`:
  `((endpoint, method), handler stack)` in registration order. -/
  router : List ((String × String) × List JsVal)
  /-- `router.param(param, callback)` registrations made by
  `registerAllParamCheckers`. -/
  routerParams : List (String × JsVal)
  /-- Middleware functions passed to `app.use` by `registerAllMiddlewares`,
  in order. -/
  appStack : List JsVal
  /-- `this.app.use(this.mainEndPoint, this.router)` has happened. -/
  routerMounted : Bool
  /-- The global error / 404 stages of `addErrorHandling` are installed. -/
  errorHandlingInstalled : Bool
  config : Config
  port : Nat
  hostname : String
  /-- `this.isServerStarted`. -/
  isServerStarted : Bool
  /-- `this.server !== null`. -/
  serverExists : Bool
  /-- `this.connections` (sockets identified by number). -/
  connections : List Nat
  /-- `console.warn` messages emitted so far. -/
  warnings : List String
deriving DecidableEq, Repr

/-- The state produced by the constructor on a valid main endpoint
(after `setupBaseMiddlewares`, which only installs the body parsers). -/
def initState (endpoint : String) (cfg : Config) : ApiState :=
  { mainEndPoint := endpoint
    endpoints := []
    middlewares := []
    parameters := []
    router := []
    routerParams := []
    appStack := []
    routerMounted := false
    errorHandlingInstalled := false
    config := cfg
    port := cfg.port
    hostname := cfg.hostname
    isServerStarted := false
    serverExists := false
    connections := []
    warnings := [] }

/-- The constructor `new APIController(endpoint, config)`:
rejects a missing endpoint or one not starting with `/`. -/
def mkController (endpoint : String) (cfg : Config) : Except Errors ApiState :=
  if endpoint = "" then .error .CLASS_INITIALIZATION_ERROR
  else if ¬ (endpoint.data.head? = some '/' : Bool) then .error .CLASS_INITIALIZATION_ERROR
  else .ok (initState endpoint cfg)

/-- `validMethods` from `validateHTTPMethod`. -/
def validMethods : List String :=
  ["get", "post", "put", "delete", "patch", "options", "head"]

/-- `validateHTTPMethod` succeeds. -/
def validMethod (m : String) : Bool := validMethods.contains m

/-- `validateEndpoint` succeeds: non-empty and starting with `/`
(`startsWith` is expressed via the first character). -/
def validEndpoint (e : String) : Bool := e ≠ "" && e.data.head? = some '/'

/-- JS `String.prototype.toUpperCase` (ASCII, as used on the method names):
uppercase every character. -/
def jsToUpper (s : String) : String := String.mk (s.data.map Char.toUpper)

/-- The registry key `"${method.toUpperCase()} ${endpoint}"`. -/
def endpointKey (method endpoint : String) : String :=
  jsToUpper method ++ " " ++ endpoint

/-- The `console.warn` text for overwriting an endpoint key. -/
def overwriteEndpointWarning (key : String) : String :=
  "Warning: Overwriting existing endpoint " ++ key

/-- The `console.warn` text for overwriting a middleware id. -/
def overwriteMiddlewareWarning (id : String) : String :=
  "Warning: Overwriting existing middleware " ++ id

/-- `addEndpoint(endpoint, method, callback, middlewares?)`.
Check order as in the source: endpoint, method, callback, then the
`isServerStarted` freeze check; on success warn on overwrite, update the
`endpoints` map and push the handler stack onto the router. -/
def addEndpoint (s : ApiState) (endpoint method : String) (callback : JsVal)
    (middlewares : Option (List JsVal)) : Option Errors × ApiState :=
  if ¬ validEndpoint endpoint then (some .ENDPOINT_ERROR, s)
  else if ¬ validMethod method then (some .METHOD_ERROR, s)
  else if ¬ callback.isCallable then (some .CALLBACK_ERROR, s)
  else if s.isServerStarted then (some .CONTROLLER_ERROR, s)
  else
    let key := endpointKey method endpoint
    let warns :=
      if mapHas key s.endpoints then s.warnings ++ [overwriteEndpointWarning key]
      else s.warnings
    let handlers := (middlewares.getD []) ++ [callback]
    (none,
      { s with
        endpoints := mapSet key callback s.endpoints
        router := s.router ++ [((endpoint, method), handlers)]
        warnings := warns })

/-- Legacy `AddEndPoint`: delegates to `addEndpoint` with no per-route
middlewares. -/
def AddEndPoint (s : ApiState) (endpoint method : String) (callback : JsVal) :
    Option Errors × ApiState :=
  addEndpoint s endpoint method callback none

/-- The `methods.forEach((method, index) => …)` loop body of
`addMultipleMethods`, with exception propagation: each pair is validated
(`validateHTTPMethod`, then `validateCallback` with `CALLBACK_ERROR`) and
registered via `addEndpoint`; a throw aborts the remaining iterations. -/
def addMethodsLoop (s : ApiState) (endpoint : String) :
    List (String × JsVal) → Option Errors × ApiState
  | [] => (none, s)
  | (m, cb) :: rest =>
    if ¬ validMethod m then (some .METHOD_ERROR, s)
    else if ¬ cb.isCallable then (some .CALLBACK_ERROR, s)
    else
      match addEndpoint s endpoint m cb none with
      | (some e, s') => (some e, s')
      | (none, s') => addMethodsLoop s' endpoint rest

/-- `addMultipleMethods(endpoint, methods, callbacks)`: endpoint check,
then non-empty `methods`, then equal lengths, then the per-pair loop. -/
def addMultipleMethods (s : ApiState) (endpoint : String)
    (methods : List String) (callbacks : List JsVal) : Option Errors × ApiState :=
  if ¬ validEndpoint endpoint then (some .ENDPOINT_ERROR, s)
  else if methods = [] then (some .METHOD_ERROR, s)
  else if callbacks.length ≠ methods.length then (some .CALLBACK_ERROR, s)
  else addMethodsLoop s endpoint (methods.zip callbacks)

/-- Legacy `AddMultipleMethods`: in the typed embedding `callback` is always
an array, so the `Array.isArray` guard passes and it delegates directly. -/
def AddMultipleMethods (s : ApiState) (endpoint : String)
    (methods : List String) (callbacks : List JsVal) : Option Errors × ApiState :=
  addMultipleMethods s endpoint methods callbacks

/-- `addMiddleware(middlewareId, callback)`: non-empty id, callable fn
(both failures use `MIDDLEWARE_ERROR`), warn on overwrite, `Map.set`. -/
def addMiddleware (s : ApiState) (id : String) (callback : JsVal) :
    Option Errors × ApiState :=
  if id = "" then (some .MIDDLEWARE_ERROR, s)
  else if ¬ callback.isCallable then (some .MIDDLEWARE_ERROR, s)
  else
    let warns :=
      if mapHas id s.middlewares then s.warnings ++ [overwriteMiddlewareWarning id]
      else s.warnings
    (none, { s with middlewares := mapSet id callback s.middlewares, warnings := warns })

/-- Legacy `AddMiddleWare`: delegates to `addMiddleware`. -/
def AddMiddleWare (s : ApiState) (id : String) (callback : JsVal) :
    Option Errors × ApiState :=
  addMiddleware s id callback

/-- `addParamChecker(param, callback)`: non-empty name (`PARAMETER_ERROR`),
then `validateCallback(callback, Errors.PARAMETER_ERROR)` — note the source
passes `PARAMETER_ERROR`, not `CALLBACK_ERROR`, for the callable check. -/
def addParamChecker (s : ApiState) (param : String) (callback : JsVal) :
    Option Errors × ApiState :=
  if param = "" then (some .PARAMETER_ERROR, s)
  else if ¬ callback.isCallable then (some .PARAMETER_ERROR, s)
  else (none, { s with parameters := mapSet param callback s.parameters })

/-- Legacy `AddParamChecker`: delegates to `addParamChecker`. -/
def AddParamChecker (s : ApiState) (param : String) (callback : JsVal) :
    Option Errors × ApiState :=
  addParamChecker s param callback

/-- `getEndpoints()`: the registry keys in order. -/
def getEndpoints (s : ApiState) : List String :=
  s.endpoints.map Prod.fst

/-- `getActiveConnections()`. -/
def getActiveConnections (s : ApiState) : Nat :=
  s.connections.length

/-- `getServerInfo()`. -/
structure ServerInfo where
  port : Nat
  hostname : String
  mainEndPoint : String
  isRunning : Bool
deriving DecidableEq, Repr

def getServerInfo (s : ApiState) : ServerInfo :=
  { port := s.port
    hostname := s.hostname
    mainEndPoint := s.mainEndPoint
    isRunning := s.isServerStarted }

/-- A `RouteDefinition` for `addRoutes`: `method` is a single verb or an
array of verbs, `handler` a single callback or an array. -/
inductive MethodSpec where
  | one (m : String)
  | many (ms : List String)
deriving DecidableEq, Repr

inductive HandlerSpec where
  | one (h : JsVal)
  | many (hs : List JsVal)
deriving DecidableEq, Repr

structure RouteDefinition where
  path : String
  method : MethodSpec
  handler : HandlerSpec
  middlewares : Option (List JsVal)
deriving DecidableEq, Repr

/-- One iteration of the `routes.forEach` in `addRoutes`:
array method → normalise handlers to an array and call
`addMultipleMethods`; single method → take `handler[0]` if the handler is an
array (JS `undefined`, i.e. a non-callable, if the array is empty) and call
`addEndpoint` with the route's middlewares. -/
def addRouteStep (s : ApiState) (r : RouteDefinition) : Option Errors × ApiState :=
  match r.method with
  | .many ms =>
    let callbacks := match r.handler with
      | .many hs => hs
      | .one h => [h]
    addMultipleMethods s r.path ms callbacks
  | .one m =>
    let callback := match r.handler with
      | .many hs => hs.headD .nonFn
      | .one h => h
    addEndpoint s r.path m callback r.middlewares

/-- `addRoutes(routes)`: the `forEach` with exception propagation. -/
def addRoutes (s : ApiState) : List RouteDefinition → Option Errors × ApiState
  | [] => (none, s)
  | r :: rest =>
    match addRouteStep s r with
    | (some e, s') => (some e, s')
    | (none, s') => addRoutes s' rest

/-- `(this.config.morgan as string) || 'combined'`. -/
def resolveMorganFormat (o : Option String) : String :=
  match o with
  | some f => if f = "" then "combined" else f
  | none => "combined"

/-- `applyDefaultMiddlewares()`: when `useDefaultMiddlewares` is set,
`Map.set` the reserved ids `morgan`, `helmet`, `cors` (in that order) to the
functions built from the configuration. -/
def applyDefaultMiddlewares (s : ApiState) : ApiState :=
  if s.config.useDefaultMiddlewares then
    { s with
      middlewares :=
        mapSet "cors" (.fn (.corsFn s.config.corsOpts))
          (mapSet "helmet" (.fn (.helmetFn s.config.helmetOpts))
            (mapSet "morgan" (.fn (.morganFn (resolveMorganFormat s.config.morganFormat)))
              s.middlewares)) }
  else s

/-- `registerAllMiddlewares()`: `app.use` every value of the middleware map,
in map (insertion) order. -/
def registerAllMiddlewares (s : ApiState) : ApiState :=
  { s with appStack := s.appStack ++ s.middlewares.map Prod.snd }

/-- `setupRouting()`: `registerAllParamCheckers` then mount the router. -/
def setupRouting (s : ApiState) : ApiState :=
  { s with routerParams := s.routerParams ++ s.parameters, routerMounted := true }

/-- `addErrorHandling()`. -/
def addErrorHandling (s : ApiState) : ApiState :=
  { s with errorHandlingInstalled := true }

/-- `startServer(legacyConfig?)`.  `legacy` is the
`legacyConfig?.useDefaultMiddlewares` string when present; a truthy value
overrides `config.useDefaultMiddlewares` with `=== 'true'`.  `bindOk` models
whether `app.listen` succeeds: on success `isServerStarted` is set and
connection tracking begins; on a bind error the promise rejects with
`SERVER_ERROR` and `isServerStarted` stays false (the pipeline mutations
already happened). -/
def startServer (s : ApiState) (legacy : Option String) (bindOk : Bool) :
    Option Errors × ApiState :=
  if s.isServerStarted then (some .SERVER_ERROR, s)
  else
    let s1 :=
      match legacy with
      | some flag =>
        if flag ≠ "" then
          { s with config := { s.config with useDefaultMiddlewares := flag = "true" } }
        else s
      | none => s
    let s2 := addErrorHandling (setupRouting (registerAllMiddlewares (applyDefaultMiddlewares s1)))
    if bindOk then (none, { s2 with isServerStarted := true, serverExists := true })
    else (some .SERVER_ERROR, { s2 with serverExists := true })

/-- `cleanup()`. -/
def cleanup (s : ApiState) : ApiState :=
  { s with isServerStarted := false, serverExists := false, connections := [] }

/-- `stopServer()` as resolved: rejects with `SERVER_ERROR` unless the server
is started and the server object exists; otherwise the graceful shutdown —
`server.close` completing after the 1-second connection sweep — resolves with
`cleanup()` applied (connections cleared, started flag dropped). -/
def stopServer (s : ApiState) : Option Errors × ApiState :=
  if ¬ s.isServerStarted ∨ ¬ s.serverExists then (some .SERVER_ERROR, s)
  else (none, cleanup s)

/-- `forceStopServer()`: requires a server object; destroys every tracked
connection, closes the listener and cleans up immediately. -/
def forceStopServer (s : ApiState) : Option Errors × ApiState :=
  if ¬ s.serverExists then (some .SERVER_ERROR, s)
  else (none, cleanup { s with connections := [] })

/-- The concatenated handler stacks the router runs, in registration order,
for a request matching `(endpoint, method)`. -/
def routeHandlers (s : ApiState) (endpoint method : String) : List JsVal :=
  (s.router.filter (fun r => r.1 = (endpoint, method))).flatMap (fun r => r.2)

/-- The ordered middleware/handler sequence a request dispatched to
`(endpoint, method)` traverses while the server is running: the app-level
middlewares installed by `registerAllMiddlewares` (in `app.use` order),
then the matched route's handler stacks (per-route middlewares before the
endpoint callback). -/
def dispatchOrder (s : ApiState) (endpoint method : String) : List JsVal :=
  s.appStack ++ routeHandlers s endpoint method

/-! ### Discrete-time model of `stopServer`'s shutdown timers

`stopServer` arms two timers: a 1000 ms sweep that destroys every
still-open connection (`setTimeout(…, 1000)`) and a 10000 ms forced-shutdown
backstop (`setTimeout(…, 10000)`).  A connection that would finish naturally
at time `some t` closes at `min t 1000`; one that never finishes (`none`) is
destroyed at the sweep.  `server.close`'s callback — which resolves the
promise — fires once every connection is closed, and the backstop resolves at
10000 ms at the latest. -/

def gracePeriodMs : Nat := 1000

def forceShutdownMs : Nat := 10000

/-- When one tracked connection actually closes, given the time at which it
would finish naturally (`none` = never). -/
def connCloseTime (finish : Option Nat) : Nat :=
  match finish with
  | some t => min t gracePeriodMs
  | none => gracePeriodMs

/-- When the graceful `server.close` callback fires: after the last
connection has closed. -/
def gracefulCloseTime (finishes : List (Option Nat)) : Nat :=
  (finishes.map connCloseTime).foldr max 0

/-- When the `stopServer` promise resolves: the graceful close, cut off by
the forced-shutdown backstop. -/
def stopResolveTime (finishes : List (Option Nat)) : Nat :=
  min (gracefulCloseTime finishes) forceShutdownMs

/-- `connections` can only be non-empty while the lifecycle flag is up
(`isServerStarted` stays `true` throughout Running and the drain; `cleanup`
clears both). -/
def connInvariant (s : ApiState) : Prop :=
  s.connections ≠ [] → s.isServerStarted = true

/-- A fresh controller `new APIController("/api/v1")`. -/
def exampleBase : ApiState := initState "/api/v1" defaultConfig

/-- `exampleBase` after a successful `startServer()`. -/
def exampleStarted : ApiState := (startServer exampleBase none true).2

/-- A fresh controller with one user middleware (`"u"`) and one endpoint
(`GET /`), not yet started. -/
def exampleUserMwState : ApiState :=
  (addEndpoint (addMiddleware exampleBase "u" (.fn (.user 0))).2
    "/" "get" (.fn (.user 1)) none).2

/-! ### Association-list (JS `Map`) lemmas -/

theorem mapGet_mapSet_self (k : String) (v : JsVal) (l : List (String × JsVal)) :
    mapGet k (mapSet k v l) = some v := by
  induction l with
  | nil => simp [mapSet, mapGet]
  | cons p rest ih =>
    by_cases h : p.1 = k
    · simp [mapSet, mapGet, h]
    · simp [mapSet, mapGet, h, ih]

theorem mapGet_mapSet_ne (k k' : String) (v : JsVal) (l : List (String × JsVal))
    (h : k' ≠ k) : mapGet k' (mapSet k v l) = mapGet k' l := by
  induction l with
  | nil => simp [mapSet, mapGet, Ne.symm h]
  | cons p rest ih =>
    by_cases hp : p.1 = k
    · have hk : ¬ k = k' := Ne.symm h
      have hp' : ¬ p.1 = k' := by rw [hp]; exact hk
      simp [mapSet, mapGet, hp, hp', hk]
    · simp [mapSet, mapGet, hp, ih]

theorem mapHas_mapSet_self (k : String) (v : JsVal) (l : List (String × JsVal)) :
    mapHas k (mapSet k v l) = true := by
  induction l with
  | nil => simp [mapSet, mapHas]
  | cons p rest ih =>
    by_cases h : p.1 = k
    · simp [mapSet, mapHas, h]
    · simp [mapSet, mapHas, h, ih]

theorem mapSet_fresh (k : String) (v : JsVal) (l : List (String × JsVal))
    (h : mapHas k l = false) : mapSet k v l = l ++ [(k, v)] := by
  induction l with
  | nil => simp [mapSet]
  | cons p rest ih =>
    simp only [mapHas, Bool.or_eq_false_iff, decide_eq_false_iff_not] at h
    simp [mapSet, h.1, ih h.2]

theorem mapHas_append (k : String) (l₁ l₂ : List (String × JsVal)) :
    mapHas k (l₁ ++ l₂) = (mapHas k l₁ || mapHas k l₂) := by
  induction l₁ with
  | nil => simp [mapHas]
  | cons p rest ih => simp [mapHas, ih, Bool.or_assoc]

theorem mapSet_mem_cases (q : String × JsVal) (k : String) (v : JsVal)
    (l : List (String × JsVal)) (h : q ∈ mapSet k v l) : q ∈ l ∨ q.1 = k := by
  induction l with
  | nil =>
    simp [mapSet] at h
    right; rw [h]
  | cons p rest ih =>
    by_cases hp : p.1 = k
    · simp only [mapSet, if_pos hp] at h
      rcases List.mem_cons.mp h with h' | h'
      · right; rw [h']
      · left; exact List.mem_cons_of_mem _ h'
    · simp only [mapSet, if_neg hp] at h
      rcases List.mem_cons.mp h with h' | h'
      · left; exact h' ▸ List.mem_cons_self _ _
      · rcases ih h' with h'' | h''
        · left; exact List.mem_cons_of_mem _ h''
        · right; exact h''

theorem mapSet_keys_nodup (k : String) (v : JsVal) (l : List (String × JsVal))
    (h : (l.map Prod.fst).Nodup) : ((mapSet k v l).map Prod.fst).Nodup := by
  induction l with
  | nil => simp [mapSet]
  | cons p rest ih =>
    simp only [List.map_cons, List.nodup_cons] at h
    by_cases hp : p.1 = k
    · simp only [mapSet, if_pos hp, List.map_cons, List.nodup_cons]
      exact ⟨by rw [← hp]; exact h.1, h.2⟩
    · simp only [mapSet, if_neg hp, List.map_cons, List.nodup_cons]
      refine ⟨?_, ih h.2⟩
      intro hmem
      rcases (List.mem_map.mp hmem) with ⟨q, hq, hq1⟩
      rcases mapSet_mem_cases q k v rest hq with hq' | hq'
      · exact h.1 (List.mem_map.mpr ⟨q, hq', hq1⟩)
      · exact hp (by rw [← hq1, hq'])

theorem mapSet_keys_count (k : String) (v : JsVal) (l : List (String × JsVal))
    (h : (l.map Prod.fst).Nodup) : ((mapSet k v l).map Prod.fst).count k = 1 := by
  induction l with
  | nil => simp [mapSet]
  | cons p rest ih =>
    simp only [List.map_cons, List.nodup_cons] at h
    by_cases hp : p.1 = k
    · simp only [mapSet, if_pos hp, List.map_cons, List.count_cons_self]
      have : k ∉ List.map Prod.fst rest := by rw [← hp]; exact h.1
      rw [List.count_eq_zero_of_not_mem this]
    · simp only [mapSet, if_neg hp, List.map_cons]
      rw [List.count_cons_of_ne (fun h' => hp h'.symm), ih h.2]

/-! ### Endpoint-key lemmas -/

theorem string_append_cancel_right (a b c : String) (h : a ++ c = b ++ c) :
    a = b := by
  have hd : a.data ++ c.data = b.data ++ c.data := by
    have := congrArg String.data h
    simpa [String.data_append] using this
  exact String.ext (List.append_cancel_right hd)

theorem validMethod_mem (m : String) (h : validMethod m = true) :
    m ∈ validMethods := by
  simpa [validMethod, List.elem_iff] using h

theorem jsToUpper_inj_on_validMethods :
    ∀ a ∈ validMethods, ∀ b ∈ validMethods, a ≠ b → jsToUpper a ≠ jsToUpper b := by
  decide

theorem endpointKey_inj_on_valid (ep m₁ m₂ : String)
    (h₁ : validMethod m₁ = true) (h₂ : validMethod m₂ = true) (hne : m₁ ≠ m₂) :
    endpointKey m₁ ep ≠ endpointKey m₂ ep := by
  intro h
  have h' : jsToUpper m₁ ++ " " = jsToUpper m₂ ++ " " := by
    apply string_append_cancel_right _ _ ep
    simpa [endpointKey, String.append_assoc] using h
  have h'' : jsToUpper m₁ = jsToUpper m₂ := string_append_cancel_right _ _ " " h'
  exact jsToUpper_inj_on_validMethods m₁ (validMethod_mem m₁ h₁) m₂
    (validMethod_mem m₂ h₂) hne h''

theorem mapSet_three_fresh (l : List (String × JsVal)) (v1 v2 v3 : JsVal)
    (h1 : mapHas "morgan" l = false) (h2 : mapHas "helmet" l = false)
    (h3 : mapHas "cors" l = false) :
    mapSet "cors" v3 (mapSet "helmet" v2 (mapSet "morgan" v1 l)) =
      l ++ [("morgan", v1), ("helmet", v2), ("cors", v3)] := by
  rw [mapSet_fresh _ _ _ h1]
  have hh : mapHas "helmet" (l ++ [("morgan", v1)]) = false := by
    rw [mapHas_append, h2]
    simp [mapHas]
  rw [mapSet_fresh _ _ _ hh]
  have hc : mapHas "cors" ((l ++ [("morgan", v1)]) ++ [("helmet", v2)]) = false := by
    rw [mapHas_append, mapHas_append, h3]
    simp [mapHas]
  rw [mapSet_fresh _ _ _ hc]
  simp

/-! ### Shape lemmas for the registration operations -/

/-- What a successful `addEndpoint` does, in one equation. -/
theorem addEndpoint_success (s : ApiState) (e m : String) (cb : JsVal)
    (mws : Option (List JsVal)) (he : validEndpoint e = true)
    (hm : validMethod m = true) (hc : cb.isCallable = true)
    (hs : s.isServerStarted = false) :
    addEndpoint s e m cb mws =
      (none,
        { s with
          endpoints := mapSet (endpointKey m e) cb s.endpoints
          router := s.router ++ [((e, m), (mws.getD []) ++ [cb])]
          warnings :=
            if mapHas (endpointKey m e) s.endpoints then
              s.warnings ++ [overwriteEndpointWarning (endpointKey m e)]
            else s.warnings }) := by
  unfold addEndpoint
  simp [he, hm, hc, hs]

/-- Behaviour of the `addMultipleMethods` loop on valid pairs with pairwise
distinct registry keys: no error, the started flag is untouched, every pair
ends up bound to its own callback, and other keys are untouched. -/
theorem addMethodsLoop_spec (ep : String) (he : validEndpoint ep = true) :
    ∀ (pairs : List (String × JsVal)) (s : ApiState),
      s.isServerStarted = false →
      (∀ q ∈ pairs, validMethod q.1 = true ∧ q.2.isCallable = true) →
      (pairs.map (fun q => endpointKey q.1 ep)).Nodup →
      (addMethodsLoop s ep pairs).1 = none ∧
      (addMethodsLoop s ep pairs).2.isServerStarted = false ∧
      (∀ q ∈ pairs,
        mapGet (endpointKey q.1 ep) (addMethodsLoop s ep pairs).2.endpoints = some q.2) ∧
      (∀ k, k ∉ pairs.map (fun q => endpointKey q.1 ep) →
        mapGet k (addMethodsLoop s ep pairs).2.endpoints = mapGet k s.endpoints) := by
  intro pairs
  induction pairs with
  | nil =>
    intro s hs _ _
    refine ⟨rfl, hs, by simp, fun k _ => rfl⟩
  | cons q rest ih =>
    intro s hs hvalid hnodup
    have hq := hvalid q (List.mem_cons_self _ _)
    have hrest : ∀ r ∈ rest, validMethod r.1 = true ∧ r.2.isCallable = true :=
      fun r hr => hvalid r (List.mem_cons_of_mem _ hr)
    simp only [List.map_cons, List.nodup_cons] at hnodup
    have hstep := addEndpoint_success s ep q.1 q.2 none he hq.1 hq.2 hs
    have hloop :
        addMethodsLoop s ep (q :: rest) =
          addMethodsLoop (addEndpoint s ep q.1 q.2 none).2 ep rest := by
      rw [addMethodsLoop, hstep]
      simp [hq.1, hq.2]
    set s' := (addEndpoint s ep q.1 q.2 none).2 with hs'
    have hs'started : s'.isServerStarted = false := by
      rw [hs', hstep]; exact hs
    have hs'endpoints : s'.endpoints = mapSet (endpointKey q.1 ep) q.2 s.endpoints := by
      rw [hs', hstep]
    obtain ⟨h1, h2, h3, h4⟩ := ih s' hs'started hrest hnodup.2
    refine ⟨by rw [hloop]; exact h1, by rw [hloop]; exact h2, ?_, ?_⟩
    · intro r hr
      rcases List.mem_cons.mp hr with hr' | hr'
      · subst hr'
        rw [hloop, h4 (endpointKey r.1 ep) hnodup.1, hs'endpoints,
          mapGet_mapSet_self]
      · rw [hloop]; exact h3 r hr'
    · intro k hk
      simp only [List.map_cons, List.mem_cons, not_or] at hk
      rw [hloop, h4 k hk.2, hs'endpoints, mapGet_mapSet_ne _ _ _ _ hk.1]

/-! ### Claim theorems -/

/-- C2 (amended): after the server has started, `addEndpoint` always throws
and leaves the whole state — in particular `getEndpoints()` — unchanged;
for a valid path, a recognised method and a callable handler the thrown
error is the `ControllerError` freeze error.  (For invalid arguments the
corresponding validation error is thrown instead, since validation precedes
the freeze check.) -/
theorem c2_addEndpoint_frozen (s : ApiState) (e m : String) (cb : JsVal)
    (mws : Option (List JsVal)) (hs : s.isServerStarted = true) :
    (addEndpoint s e m cb mws).2 = s ∧
    getEndpoints (addEndpoint s e m cb mws).2 = getEndpoints s ∧
    (addEndpoint s e m cb mws).1 ≠ none ∧
    (validEndpoint e = true → validMethod m = true → cb.isCallable = true →
      (addEndpoint s e m cb mws).1 = some Errors.CONTROLLER_ERROR) := by
  refine ⟨?_, ?_, ?_, ?_⟩
  · unfold addEndpoint; split_ifs <;> simp_all
  · unfold addEndpoint; split_ifs <;> simp_all
  · unfold addEndpoint; split_ifs <;> simp_all
  · intro he hm hc
    unfold addEndpoint
    simp [he, hm, hc, hs]

/-- C2 witness: on a concrete started server, a valid registration attempt
fails with the `ControllerError` and the registry is untouched. -/
theorem c2_addEndpoint_frozen_witness :
    (addEndpoint exampleStarted "/late" "get" (.fn (.user 9)) none).2 = exampleStarted ∧
    getEndpoints (addEndpoint exampleStarted "/late" "get" (.fn (.user 9)) none).2 =
      getEndpoints exampleStarted ∧
    (addEndpoint exampleStarted "/late" "get" (.fn (.user 9)) none).1 ≠ none ∧
    (validEndpoint "/late" = true → validMethod "get" = true →
      JsVal.isCallable (.fn (.user 9)) = true →
      (addEndpoint exampleStarted "/late" "get" (.fn (.user 9)) none).1 =
        some Errors.CONTROLLER_ERROR) :=
  c2_addEndpoint_frozen exampleStarted "/late" "get" (.fn (.user 9)) none (by decide)

/-- C2 counterexample: the claim quantifies over *every* path, but with the
invalid path `"nope"` (no leading `/`) the post-start call throws the
`EndpointError` from validation, not the `ControllerError` freeze error. -/
theorem c2_counterexample :
    exampleStarted.isServerStarted = true ∧
    (addEndpoint exampleStarted "nope" "get" (.fn (.user 2)) none).1 =
      some Errors.ENDPOINT_ERROR ∧
    (addEndpoint exampleStarted "nope" "get" (.fn (.user 2)) none).1 ≠
      some Errors.CONTROLLER_ERROR := by
  decide

/-- C4: on a registry with distinct keys, a valid `addEndpoint` succeeds and
leaves its key in `getEndpoints()` exactly once; a second registration of the
same `(path, method)` before start succeeds, emits the overwrite warning,
still leaves exactly one key, and rebinds the key to the second handler. -/
theorem c4_addEndpoint_overwrite (s : ApiState) (e m : String) (h1 h2 : JsVal)
    (hnodup : (s.endpoints.map Prod.fst).Nodup)
    (he : validEndpoint e = true) (hm : validMethod m = true)
    (hc1 : h1.isCallable = true) (hc2 : h2.isCallable = true)
    (hs : s.isServerStarted = false) :
    (addEndpoint s e m h1 none).1 = none ∧
    (getEndpoints (addEndpoint s e m h1 none).2).count (endpointKey m e) = 1 ∧
    (addEndpoint (addEndpoint s e m h1 none).2 e m h2 none).1 = none ∧
    (addEndpoint (addEndpoint s e m h1 none).2 e m h2 none).2.warnings =
      (addEndpoint s e m h1 none).2.warnings ++
        [overwriteEndpointWarning (endpointKey m e)] ∧
    (getEndpoints (addEndpoint (addEndpoint s e m h1 none).2 e m h2 none).2).count
      (endpointKey m e) = 1 ∧
    mapGet (endpointKey m e)
      (addEndpoint (addEndpoint s e m h1 none).2 e m h2 none).2.endpoints = some h2 := by
  have hstep1 := addEndpoint_success s e m h1 none he hm hc1 hs
  have hs1started : (addEndpoint s e m h1 none).2.isServerStarted = false := by
    rw [hstep1]; exact hs
  have hstep2 := addEndpoint_success (addEndpoint s e m h1 none).2 e m h2 none
    he hm hc2 hs1started
  have hs1endpoints : (addEndpoint s e m h1 none).2.endpoints =
      mapSet (endpointKey m e) h1 s.endpoints := by rw [hstep1]
  have hnodup1 : ((addEndpoint s e m h1 none).2.endpoints.map Prod.fst).Nodup := by
    rw [hs1endpoints]; exact mapSet_keys_nodup _ _ _ hnodup
  refine ⟨by rw [hstep1], ?_, by rw [hstep2], ?_, ?_, ?_⟩
  · unfold getEndpoints
    rw [hs1endpoints]
    exact mapSet_keys_count _ _ _ hnodup
  · rw [hstep2]
    simp [hs1endpoints, mapHas_mapSet_self]
  · unfold getEndpoints
    have : (addEndpoint (addEndpoint s e m h1 none).2 e m h2 none).2.endpoints =
        mapSet (endpointKey m e) h2 (addEndpoint s e m h1 none).2.endpoints := by
      rw [hstep2]
    rw [this]
    exact mapSet_keys_count _ _ _ hnodup1
  · have : (addEndpoint (addEndpoint s e m h1 none).2 e m h2 none).2.endpoints =
        mapSet (endpointKey m e) h2 (addEndpoint s e m h1 none).2.endpoints := by
      rw [hstep2]
    rw [this]
    exact mapGet_mapSet_self _ _ _

/-- C4 witness: the double registration on a fresh controller. -/
theorem c4_addEndpoint_overwrite_witness :
    (addEndpoint exampleBase "/d" "get" (.fn (.user 5)) none).1 = none ∧
    (getEndpoints (addEndpoint exampleBase "/d" "get" (.fn (.user 5)) none).2).count
      (endpointKey "get" "/d") = 1 ∧
    (addEndpoint (addEndpoint exampleBase "/d" "get" (.fn (.user 5)) none).2
      "/d" "get" (.fn (.user 6)) none).1 = none ∧
    (addEndpoint (addEndpoint exampleBase "/d" "get" (.fn (.user 5)) none).2
      "/d" "get" (.fn (.user 6)) none).2.warnings =
      (addEndpoint exampleBase "/d" "get" (.fn (.user 5)) none).2.warnings ++
        [overwriteEndpointWarning (endpointKey "get" "/d")] ∧
    (getEndpoints (addEndpoint (addEndpoint exampleBase "/d" "get" (.fn (.user 5)) none).2
      "/d" "get" (.fn (.user 6)) none).2).count (endpointKey "get" "/d") = 1 ∧
    mapGet (endpointKey "get" "/d")
      (addEndpoint (addEndpoint exampleBase "/d" "get" (.fn (.user 5)) none).2
        "/d" "get" (.fn (.user 6)) none).2.endpoints = some (.fn (.user 6)) :=
  c4_addEndpoint_overwrite exampleBase "/d" "get" (.fn (.user 5)) (.fn (.user 6))
    (by decide) (by decide) (by decide) (by decide) (by decide) (by decide)

/-- C5: a second `startServer` while running fails with the `ServerError`
and returns the state completely unchanged (registry, middlewares,
configuration and connection tracking included), still running. -/
theorem c5_startServer_already_running (s : ApiState) (legacy : Option String)
    (bindOk : Bool) (hs : s.isServerStarted = true) :
    startServer s legacy bindOk = (some Errors.SERVER_ERROR, s) ∧
    (startServer s legacy bindOk).2.isServerStarted = true := by
  have h : startServer s legacy bindOk = (some Errors.SERVER_ERROR, s) := by
    unfold startServer; simp [hs]
  exact ⟨h, by rw [h]; exact hs⟩

/-- C5 witness: a concrete running server rejects a second start untouched. -/
theorem c5_startServer_already_running_witness :
    startServer exampleStarted none true = (some Errors.SERVER_ERROR, exampleStarted) ∧
    (startServer exampleStarted none true).2.isServerStarted = true :=
  c5_startServer_already_running exampleStarted none true (by decide)

/-- C6: `stopServer` on a non-running server fails with the `ServerError`;
on a running server it resolves with no error, an empty connection set
(`getActiveConnections() = 0`) and `getServerInfo().isRunning = false`; and
it preserves the invariant that the connection set is non-empty only while
the lifecycle flag is up. -/
theorem c6_stopServer_spec (s : ApiState) :
    ((s.isServerStarted = false ∨ s.serverExists = false) →
      stopServer s = (some Errors.SERVER_ERROR, s)) ∧
    (s.isServerStarted = true → s.serverExists = true →
      (stopServer s).1 = none ∧
      getActiveConnections (stopServer s).2 = 0 ∧
      (getServerInfo (stopServer s).2).isRunning = false) ∧
    (connInvariant s → connInvariant (stopServer s).2) := by
  refine ⟨?_, ?_, ?_⟩
  · intro h
    unfold stopServer
    rcases h with h | h
    · simp [h]
    · simp [h]
  · intro h1 h2
    unfold stopServer cleanup getActiveConnections getServerInfo
    simp [h1, h2]
  · intro hinv
    unfold stopServer cleanup connInvariant
    split_ifs with h
    · exact hinv
    · intro h'
      simp at h'

/-- C6 witness: stopping a concrete running server with three tracked
connections empties the connection set and drops the running flag. -/
theorem c6_stopServer_spec_witness :
    (stopServer { exampleStarted with connections := [1, 2, 3] }).1 = none ∧
    getActiveConnections (stopServer { exampleStarted with connections := [1, 2, 3] }).2 = 0 ∧
    (getServerInfo (stopServer { exampleStarted with connections := [1, 2, 3] }).2).isRunning
      = false :=
  (c6_stopServer_spec { exampleStarted with connections := [1, 2, 3] }).2.1
    (by decide) (by decide)

/-- C7: in the discrete-time model of `stopServer`'s two timers, every
connection is closed within the 1000 ms grace window (`setTimeout(…, 1000)`
destroys whatever is still open), the graceful `server.close` callback fires
within the grace window, and the promise resolves no later than the 10000 ms
forced-shutdown deadline — 1 and 10 time-units of 1000 ms. -/
theorem c7_stopServer_bounded (finishes : List (Option Nat)) :
    stopResolveTime finishes ≤ forceShutdownMs ∧
    gracefulCloseTime finishes ≤ gracePeriodMs ∧
    (∀ f ∈ finishes, connCloseTime f ≤ gracePeriodMs) ∧
    gracePeriodMs = 1 * 1000 ∧ forceShutdownMs = 10 * 1000 := by
  have hconn : ∀ f, connCloseTime f ≤ gracePeriodMs := by
    intro f
    cases f with
    | none => simp [connCloseTime]
    | some t => simp [connCloseTime]
  have hgrace : gracefulCloseTime finishes ≤ gracePeriodMs := by
    unfold gracefulCloseTime
    induction finishes with
    | nil => simp
    | cons f rest ih =>
      simp only [List.map_cons, List.foldr_cons]
      exact max_le (hconn f) ih
  refine ⟨?_, hgrace, fun f _ => hconn f, rfl, rfl⟩
  exact min_le_right _ _

/-- C7 witness: a mix of fast, slow and never-finishing connections. -/
theorem c7_stopServer_bounded_witness :
    stopResolveTime [some 500, none, some 20000] ≤ forceShutdownMs ∧
    gracefulCloseTime [some 500, none, some 20000] ≤ gracePeriodMs ∧
    (∀ f ∈ [some 500, none, some 20000], connCloseTime f ≤ gracePeriodMs) ∧
    gracePeriodMs = 1 * 1000 ∧ forceShutdownMs = 10 * 1000 :=
  c7_stopServer_bounded [some 500, none, some 20000]

/-- C8: each legacy capitalized entry point is extensionally equal to its
modern counterpart — `AddEndPoint` to `addEndpoint` without per-route
middlewares, `AddMultipleMethods` (with an array callback, the only shape
the typed embedding admits) to `addMultipleMethods`, `AddMiddleWare` to
`addMiddleware`, `AddParamChecker` to `addParamChecker` — and `startServer`
with the legacy string flag behaves exactly like the modern call on the
equivalently-configured controller; when the server is already running both
fail with the same `ServerError`. -/
theorem c8_legacy_equiv :
    (∀ s e m cb, AddEndPoint s e m cb = addEndpoint s e m cb none) ∧
    (∀ s e ms cbs, AddMultipleMethods s e ms cbs = addMultipleMethods s e ms cbs) ∧
    (∀ s i cb, AddMiddleWare s i cb = addMiddleware s i cb) ∧
    (∀ s p cb, AddParamChecker s p cb = addParamChecker s p cb) ∧
    (∀ s flag bindOk, s.isServerStarted = false → flag ≠ "" →
      startServer s (some flag) bindOk =
        startServer
          { s with config := { s.config with useDefaultMiddlewares := flag = "true" } }
          none bindOk) ∧
    (∀ s flag bindOk, s.isServerStarted = true →
      (startServer s (some flag) bindOk).1 = some Errors.SERVER_ERROR ∧
      (startServer
        { s with config := { s.config with useDefaultMiddlewares := flag = "true" } }
        none bindOk).1 = some Errors.SERVER_ERROR) := by
  refine ⟨fun s e m cb => rfl, fun s e ms cbs => rfl, fun s i cb => rfl,
    fun s p cb => rfl, ?_, ?_⟩
  · intro s flag bindOk hs hflag
    unfold startServer
    simp [hs, hflag]
  · intro s flag bindOk hs
    unfold startServer
    simp [hs]

/-- C8 witness: the legacy flag `"false"` on a fresh controller matches the
modern structured configuration. -/
theorem c8_legacy_equiv_witness :
    AddEndPoint exampleBase "/" "get" (.fn (.user 1)) =
      addEndpoint exampleBase "/" "get" (.fn (.user 1)) none ∧
    startServer exampleBase (some "false") true =
      startServer
        { exampleBase with
          config := { exampleBase.config with useDefaultMiddlewares := "false" = "true" } }
        none true :=
  ⟨c8_legacy_equiv.1 exampleBase "/" "get" (.fn (.user 1)),
    c8_legacy_equiv.2.2.2.2.1 exampleBase "false" true (by decide) (by decide)⟩

/-- C9 (amended): `addParamChecker` throws the `ParameterError` both when the
name is empty and when the callback is not callable (the source passes
`PARAMETER_ERROR`, not `CALLBACK_ERROR`, to `validateCallback`); with a
non-empty name and a callable function it registers the validator under the
name without error. -/
theorem c9_addParamChecker_errors (s : ApiState) (p : String) (cb : JsVal) :
    (p = "" → addParamChecker s p cb = (some Errors.PARAMETER_ERROR, s)) ∧
    (p ≠ "" → cb.isCallable = false →
      addParamChecker s p cb = (some Errors.PARAMETER_ERROR, s)) ∧
    (p ≠ "" → cb.isCallable = true →
      (addParamChecker s p cb).1 = none ∧
      mapGet p (addParamChecker s p cb).2.parameters = some cb) := by
  refine ⟨?_, ?_, ?_⟩
  · intro h
    unfold addParamChecker
    simp [h]
  · intro h hc
    unfold addParamChecker
    simp [h, hc]
  · intro h hc
    unfold addParamChecker
    simp [h, hc, mapGet_mapSet_self]

/-- C9 witness: a valid registration on a fresh controller. -/
theorem c9_addParamChecker_errors_witness :
    (addParamChecker exampleBase "id" (.fn (.user 0))).1 = none ∧
    mapGet "id" (addParamChecker exampleBase "id" (.fn (.user 0))).2.parameters =
      some (.fn (.user 0)) :=
  (c9_addParamChecker_errors exampleBase "id" (.fn (.user 0))).2.2
    (by decide) (by decide)

/-- C9 counterexample: a non-callable validator is rejected with the
`ParameterError`, not the `CallbackError` the claim names. -/
theorem c9_counterexample :
    JsVal.isCallable .nonFn = false ∧
    (addParamChecker exampleBase "id" .nonFn).1 = some Errors.PARAMETER_ERROR ∧
    (addParamChecker exampleBase "id" .nonFn).1 ≠ some Errors.CALLBACK_ERROR := by
  decide

/-- C10: `addRoutes` on a definition whose method is a single verb but whose
handler is an array registers only `handler[0]` — the call is literally
equivalent to `addEndpoint` with the first handler, for any tail of extra
handlers, so the rest are discarded with no error and no warning. -/
theorem c10_addRoutes_single_method_array_handler (s : ApiState) (p m : String)
    (h : JsVal) (rest : List JsVal) (mws : Option (List JsVal)) :
    addRoutes s
      [{ path := p, method := .one m, handler := .many (h :: rest), middlewares := mws }] =
      addEndpoint s p m h mws := by
  have hstep :
      addRouteStep s
        { path := p, method := .one m, handler := .many (h :: rest), middlewares := mws } =
        addEndpoint s p m h mws := by
    simp [addRouteStep]
  unfold addRoutes
  rw [hstep]
  rcases he : addEndpoint s p m h mws with ⟨err, s'⟩
  cases err with
  | none => simp [addRoutes]
  | some e => simp

/-- C3 (amended): `addMultipleMethods` with a valid path and a *non-empty*
methods array whose length differs from the callbacks array throws the
`CallbackError` and registers nothing; an empty methods array is rejected
with the `MethodError` — even when the lengths also mismatch, the emptiness
check fires first; and for equal-length arrays of distinct valid methods and
callable handlers before start, every `methods[i]` ends up bound to
`callbacks[i]` in the registry. -/
theorem c3_addMultipleMethods_spec (s : ApiState) (ep : String)
    (methods : List String) (callbacks : List JsVal) :
    (validEndpoint ep = true → methods ≠ [] →
      callbacks.length ≠ methods.length →
      addMultipleMethods s ep methods callbacks = (some Errors.CALLBACK_ERROR, s)) ∧
    (validEndpoint ep = true → methods = [] →
      addMultipleMethods s ep methods callbacks = (some Errors.METHOD_ERROR, s)) ∧
    (validEndpoint ep = true → s.isServerStarted = false →
      methods ≠ [] →
      methods.Nodup →
      (∀ m ∈ methods, validMethod m = true) →
      (∀ cb ∈ callbacks, cb.isCallable = true) →
      callbacks.length = methods.length →
      (addMultipleMethods s ep methods callbacks).1 = none ∧
      ∀ i (hi : i < methods.length) (hj : i < callbacks.length),
        mapGet (endpointKey methods[i] ep)
          (addMultipleMethods s ep methods callbacks).2.endpoints =
          some callbacks[i]) := by
  refine ⟨?_, ?_, ?_⟩
  · intro he hne hlen
    unfold addMultipleMethods
    simp [he, hne, hlen]
  · intro he hemp
    unfold addMultipleMethods
    simp [he, hemp]
  · intro he hs hne hnodup hmeth hcall hlen
    have hmain :
        addMultipleMethods s ep methods callbacks =
          addMethodsLoop s ep (methods.zip callbacks) := by
      unfold addMultipleMethods
      simp [he, hne, hlen]
    have hfst : (methods.zip callbacks).map Prod.fst = methods :=
      List.map_fst_zip _ _ (le_of_eq hlen.symm)
    have hkeys : (methods.zip callbacks).map (fun q => endpointKey q.1 ep) =
        methods.map (fun m => endpointKey m ep) := by
      conv_rhs => rw [← hfst, List.map_map]
      rfl
    have hkeysnodup : ((methods.zip callbacks).map (fun q => endpointKey q.1 ep)).Nodup := by
      rw [hkeys]
      refine List.Nodup.map_on ?_ hnodup
      intro x hx y hy hxy
      by_contra hne'
      exact endpointKey_inj_on_valid ep x y (hmeth x hx) (hmeth y hy) hne' hxy
    have hpairs : ∀ q ∈ methods.zip callbacks,
        validMethod q.1 = true ∧ q.2.isCallable = true := by
      rintro ⟨qm, qc⟩ hq
      have := List.of_mem_zip hq
      exact ⟨hmeth qm this.1, hcall qc this.2⟩
    obtain ⟨h1, _, h3, _⟩ :=
      addMethodsLoop_spec ep he (methods.zip callbacks) s hs hpairs hkeysnodup
    refine ⟨by rw [hmain]; exact h1, ?_⟩
    intro i hi hj
    have hzlen : i < (methods.zip callbacks).length := by
      rw [List.length_zip]
      omega
    have hmem : (methods[i], callbacks[i]) ∈ methods.zip callbacks := by
      rw [← List.getElem_zip]
      exact List.getElem_mem hzlen
    have := h3 (methods[i], callbacks[i]) hmem
    rw [hmain]
    exact this

/-- C3 witness: two distinct methods on one path, each bound to its own
callback, plus a concrete mismatched pair rejected with the
`CallbackError`. -/
theorem c3_addMultipleMethods_spec_witness :
    addMultipleMethods exampleBase "/x" ["get"] [] =
      (some Errors.CALLBACK_ERROR, exampleBase) ∧
    (addMultipleMethods exampleBase "/x" ["get", "post"]
      [.fn (.user 3), .fn (.user 4)]).1 = none ∧
    mapGet (endpointKey (["get", "post"][1]) "/x")
      (addMultipleMethods exampleBase "/x" ["get", "post"]
        [.fn (.user 3), .fn (.user 4)]).2.endpoints =
      some ([JsVal.fn (.user 3), JsVal.fn (.user 4)][1]) := by
  refine ⟨?_, ?_, ?_⟩
  · exact (c3_addMultipleMethods_spec exampleBase "/x" ["get"] []).1
      (by decide) (by decide) (by decide)
  · exact ((c3_addMultipleMethods_spec exampleBase "/x" ["get", "post"]
      [.fn (.user 3), .fn (.user 4)]).2.2 (by decide) (by decide) (by decide)
      (by decide) (by decide) (by decide) (by decide)).1
  · exact ((c3_addMultipleMethods_spec exampleBase "/x" ["get", "post"]
      [.fn (.user 3), .fn (.user 4)]).2.2 (by decide) (by decide) (by decide)
      (by decide) (by decide) (by decide) (by decide)).2 1 (by decide) (by decide)

/-- C3 counterexample: `([], [h])` is a mismatched-length pair, yet the call
fails with the `MethodError` from the emptiness check, not the
`CallbackError` the claim requires for every mismatched pair. -/
theorem c3_counterexample :
    ([] : List String).length ≠ ([JsVal.fn (.user 0)]).length ∧
    (addMultipleMethods exampleBase "/x" [] [.fn (.user 0)]).1 =
      some Errors.METHOD_ERROR ∧
    (addMultipleMethods exampleBase "/x" [] [.fn (.user 0)]).1 ≠
      some Errors.CALLBACK_ERROR := by
  decide

/-- C1 counterexample: on a controller with one user middleware registered
before start, the dispatch order is user middleware first, then the
defaults — not defaults first as claimed, because `applyDefaultMiddlewares`
only inserts the reserved ids into the middleware map at `startServer` time,
after the user's entries. -/
theorem c1_counterexample :
    dispatchOrder (startServer exampleUserMwState none true).2 "/" "get" =
      [.fn (.user 0), .fn (.morganFn "combined"), .fn (.helmetFn none),
       .fn (.corsFn none), .fn (.user 1)] ∧
    dispatchOrder (startServer exampleUserMwState none true).2 "/" "get" ≠
      [.fn (.morganFn "combined"), .fn (.helmetFn none), .fn (.corsFn none),
       .fn (.user 0), .fn (.user 1)] := by
  decide

/-- C1 (amended): user middlewares are registered in `addMiddleware` call
order; per-route middlewares are stacked before the handler at
`addEndpoint` time; and at dispatch time the order is user middlewares (in
registration order) first, then the reserved default middlewares
`morgan, helmet, cors` (when enabled and their ids are unused), then each
matched route's per-route middlewares followed by its handler.  The composer
never reorders entries — the defaults merely join the chain *after* the
user middlewares, not before them. -/
theorem c1_pipeline_order (s : ApiState) (e m : String)
    (hstart : s.isServerStarted = false)
    (happ : s.appStack = [])
    (hdef : s.config.useDefaultMiddlewares = true)
    (hmor : mapHas "morgan" s.middlewares = false)
    (hhel : mapHas "helmet" s.middlewares = false)
    (hcor : mapHas "cors" s.middlewares = false) :
    (∀ i cb, i ≠ "" → cb.isCallable = true → mapHas i s.middlewares = false →
      ((addMiddleware s i cb).2).middlewares = s.middlewares ++ [(i, cb)]) ∧
    (∀ cb mws, validEndpoint e = true → validMethod m = true →
      cb.isCallable = true →
      ((addEndpoint s e m cb (some mws)).2).router =
        s.router ++ [((e, m), mws ++ [cb])]) ∧
    ((startServer s none true).1 = none ∧
      dispatchOrder (startServer s none true).2 e m =
        s.middlewares.map Prod.snd ++
          [.fn (.morganFn (resolveMorganFormat s.config.morganFormat)),
           .fn (.helmetFn s.config.helmetOpts),
           .fn (.corsFn s.config.corsOpts)] ++
          routeHandlers s e m) := by
  refine ⟨?_, ?_, ?_⟩
  · intro i cb hi hc hf
    unfold addMiddleware
    simp [hi, hc, mapSet_fresh _ _ _ hf]
  · intro cb mws he hm hc
    rw [addEndpoint_success s e m cb (some mws) he hm hc hstart]
    simp
  · have hmw3 : (applyDefaultMiddlewares s).middlewares =
        s.middlewares ++
          [("morgan", JsVal.fn (.morganFn (resolveMorganFormat s.config.morganFormat))),
           ("helmet", JsVal.fn (.helmetFn s.config.helmetOpts)),
           ("cors", JsVal.fn (.corsFn s.config.corsOpts))] := by
      unfold applyDefaultMiddlewares
      rw [if_pos (by simp [hdef])]
      exact mapSet_three_fresh s.middlewares _ _ _ hmor hhel hcor
    have hmwStack : (applyDefaultMiddlewares s).appStack = s.appStack := by
      unfold applyDefaultMiddlewares
      split_ifs
      all_goals rfl
    have hmwRouter : (applyDefaultMiddlewares s).router = s.router := by
      unfold applyDefaultMiddlewares
      split_ifs
      all_goals rfl
    have hresult : startServer s none true =
        (none,
          { addErrorHandling (setupRouting (registerAllMiddlewares
              (applyDefaultMiddlewares s))) with
            isServerStarted := true, serverExists := true }) := by
      unfold startServer
      simp [hstart]
    have hstack : (addErrorHandling (setupRouting (registerAllMiddlewares
        (applyDefaultMiddlewares s)))).appStack =
        s.middlewares.map Prod.snd ++
          [.fn (.morganFn (resolveMorganFormat s.config.morganFormat)),
           .fn (.helmetFn s.config.helmetOpts),
           .fn (.corsFn s.config.corsOpts)] := by
      unfold addErrorHandling setupRouting registerAllMiddlewares
      simp [hmw3, hmwStack, happ]
    have hrout : (addErrorHandling (setupRouting (registerAllMiddlewares
        (applyDefaultMiddlewares s)))).router = s.router := by
      unfold addErrorHandling setupRouting registerAllMiddlewares
      simp [hmwRouter]
    refine ⟨by rw [hresult], ?_⟩
    rw [hresult]
    unfold dispatchOrder routeHandlers
    simp [hstack, hrout]

/-- C1 witness: the amended ordering on a concrete controller with one user
middleware and one endpoint. -/
theorem c1_pipeline_order_witness :
    (startServer exampleUserMwState none true).1 = none ∧
    dispatchOrder (startServer exampleUserMwState none true).2 "/" "get" =
      exampleUserMwState.middlewares.map Prod.snd ++
        [.fn (.morganFn (resolveMorganFormat exampleUserMwState.config.morganFormat)),
         .fn (.helmetFn exampleUserMwState.config.helmetOpts),
         .fn (.corsFn exampleUserMwState.config.corsOpts)] ++
        routeHandlers exampleUserMwState "/" "get" :=
  (c1_pipeline_order exampleUserMwState "/" "get" (by decide) (by decide)
    (by decide) (by decide) (by decide) (by decide)).2.2
